import Mathlib

/-!
Shallow embedding of vaultwarden's Duo OIDC two-factor connector
(`src/api/core/two_factor/duo_oidc.rs`) together with theorems checking the
natural-language specification against it.

Conventions of the embedding:
* machine integers (`i64`, `usize`) become `Int` / `Nat` (no overflow is
  reachable at the magnitudes involved);
* `Utc::now().timestamp()` becomes an explicit `now : Int` parameter;
* the thread RNG behind `crypto::get_random_string` becomes an explicit
  stream `rng : Nat → Nat` of drawn indices;
* network I/O becomes an explicit parameter holding the verifier's answer
  (`HttpResult` / `ExchangeHttp`); the request-building code stays embedded
  as pure functions;
* fallible Rust code returning `Result<T, Error>` becomes `Except String T`,
  and code that can additionally panic becomes `Outcome T`;
* JWTs are modelled symbolically: a token is a header algorithm, a structured
  payload and a signature string produced by a formal HMAC function applied to
  the secret and the serialized payload.
-/

namespace DuoOidc

/-- Rust `Result`-or-panic outcome of a code path: `ok`, an `err!` error with
its message, or a process panic with its message. -/
inductive Outcome (α : Type) where
  | ok (a : α)
  | err (msg : String)
  | panic (msg : String)
deriving DecidableEq

/-- True iff the outcome is a success. -/
def Outcome.isOk {α : Type} : Outcome α → Bool
  | .ok _ => true
  | _ => false

/-- True iff the outcome is an `err!` error (not a success, not a panic). -/
def Outcome.isErr {α : Type} : Outcome α → Bool
  | .err _ => true
  | _ => false

/-- `STATE_CHAR_POOL`: the 62 alphanumeric characters 0-9 (0x30-0x39),
A-Z (0x41-0x5A), a-z (0x61-0x7A), exactly the bytes listed in the source. -/
def STATE_CHAR_POOL : List Char :=
  ("0123456789" ++ "ABCDEFGHIJKLMNOPQRSTUVWXYZ" ++ "abcdefghijklmnopqrstuvwxyz").data

def MIN_STATE_SIZE : Nat := 16

def MAX_STATE_SIZE : Nat := 1024

/-- Default size of state for `generate_state_default()`. -/
def STATE_LENGTH : Nat := 36

/-- Default JWT validity time. -/
def JWT_VALIDITY_SECS : Int := 300

/-- Stored Duo context validity duration. -/
def CTX_VALIDITY_SECS : Int := 300

/-- `HEALTH_ENDPOINT!` applied to the api host. -/
def healthEndpoint (host : String) : String :=
  "https://" ++ host ++ "/oauth/v1/health_check"

/-- `AUTHZ_ENDPOINT!` applied to the api host. -/
def authzEndpoint (host : String) : String :=
  "https://" ++ host ++ "/oauth/v1/authorize"

/-- `API_HOST_FMT!` applied to the api host. -/
def apiHostUrl (host : String) : String :=
  "https://" ++ host

/-- `TOKEN_ENDPOINT!` applied to the api host. -/
def tokenEndpoint (host : String) : String :=
  "https://" ++ host ++ "/oauth/v1/token"

/-- Modelled from the spec: `crypto::get_random_string` (the `crypto` module is
not part of this source file). It draws, for each of `num_chars` positions, a
random in-range index into `alphabet` and collects the characters. The RNG is
modelled as the stream `rng` of drawn numbers, reduced into range with `%`. -/
def get_random_string (alphabet : List Char) (num_chars : Nat) (rng : Nat → Nat) : String :=
  String.mk ((List.range num_chars).map (fun i => alphabet.getD (rng i % alphabet.length) 'A'))

/-- `generate_state_len`: panics when the size is outside
`[MIN_STATE_SIZE, MAX_STATE_SIZE]`, otherwise draws a random string from
`STATE_CHAR_POOL`. -/
def generate_state_len (size : Nat) (rng : Nat → Nat) : Outcome String :=
  if size < MIN_STATE_SIZE ∨ MAX_STATE_SIZE < size then
    .panic ("Illegal Duo state size: " ++ toString size ++ ". Size must be 15 < size < 1025")
  else
    .ok (get_random_string STATE_CHAR_POOL size rng)

/-- `generate_state_default`: the source calls `generate_state_len(STATE_LENGTH)`,
whose range check always passes at size 36; this is that in-range branch.
The agreement with `generate_state_len` is proved in the theorem for C6. -/
def generate_state_default (rng : Nat → Nat) : String :=
  get_random_string STATE_CHAR_POOL STATE_LENGTH rng

/-- JWT signing algorithms relevant to this connector (`jsonwebtoken::Algorithm`,
restricted to the HMAC family actually usable with `from_secret` keys). -/
inductive Alg where
  | HS256
  | HS384
  | HS512
deriving DecidableEq

/-- Name of an algorithm, used only to separate the formal HMAC functions. -/
def Alg.name : Alg → String
  | .HS256 => "HS256"
  | .HS384 => "HS384"
  | .HS512 => "HS512"

/-- Serialization of a claim struct to its JSON payload, modelled as an
abstract serialization string (serde_json is outside this source file). -/
class DuoSer (α : Type) where
  ser : α → String

/-- Symbolic HMAC: the signature that signing `payload` under `secret` with
algorithm `alg` produces. Verification in this model is comparison with a
recomputation of this function, exactly as HMAC verification recomputes the
tag; distinct algorithms give distinct formal tags. -/
def hmacSign (alg : Alg) (secret payload : String) : String :=
  "hmac(" ++ alg.name ++ "," ++ secret ++ "," ++ payload ++ ")"

/-- A decoded compact JWT: header algorithm, structured payload, signature. -/
structure JwtToken (α : Type) where
  alg : Alg
  payload : α
  sig : String
deriving DecidableEq

/-- Compact serialization of a JWT, used where a token is embedded in a URL. -/
def compactJwt {α : Type} [DuoSer α] (t : JwtToken α) : String :=
  t.alg.name ++ "." ++ DuoSer.ser t.payload ++ "." ++ t.sig

/-- `ClientAssertionJwt`: claims of the client assertion posted to the health
check and token endpoints. -/
structure ClientAssertionJwt where
  iss : String
  sub : String
  aud : String
  exp : Int
  jti : String
  iat : Int
deriving DecidableEq

instance : DuoSer ClientAssertionJwt where
  ser p :=
    "(iss:" ++ p.iss ++ ",sub:" ++ p.sub ++ ",aud:" ++ p.aud ++ ",exp:" ++ toString p.exp ++
      ",jti:" ++ p.jti ++ ",iat:" ++ toString p.iat ++ ")"

/-- `AuthUrlJwt`: claims of the signed authorization request embedded in the
authorize URL. -/
structure AuthUrlJwt where
  response_type : String
  scope : String
  exp : Int
  client_id : String
  redirect_uri : String
  state : String
  duo_uname : String
  iss : Option String
  aud : Option String
  nonce : String
  use_duo_code_attribute : Option Bool
deriving DecidableEq

/-- Serialization of an optional string claim (absent claims serialize to a
marker, mirroring `skip_serializing_if = Option::is_none`). -/
def serOpt : Option String → String
  | none => "_"
  | some s => s

instance : DuoSer AuthUrlJwt where
  ser p :=
    "(response_type:" ++ p.response_type ++ ",scope:" ++ p.scope ++ ",exp:" ++ toString p.exp ++
      ",client_id:" ++ p.client_id ++ ",redirect_uri:" ++ p.redirect_uri ++ ",state:" ++ p.state ++
      ",duo_uname:" ++ p.duo_uname ++ ",iss:" ++ serOpt p.iss ++ ",aud:" ++ serOpt p.aud ++
      ",nonce:" ++ p.nonce ++ ",use_duo_code_attribute:" ++
      (match p.use_duo_code_attribute with | none => "_" | some b => toString b) ++ ")"

/-- The JSON claim set carried by a received id_token. All claims optional at
the wire level; presence requirements are imposed by deserialization and
validation, mirroring the JSON object the verifier signs. -/
structure IdTokenPayload where
  exp : Option Int
  aud : Option String
  iss : Option String
  preferred_username : Option String
  nonce : Option String
deriving DecidableEq

/-- Serialization of an optional integer claim. -/
def serOptInt : Option Int → String
  | none => "_"
  | some i => toString i

instance : DuoSer IdTokenPayload where
  ser p :=
    "(exp:" ++ serOptInt p.exp ++ ",aud:" ++ serOpt p.aud ++ ",iss:" ++ serOpt p.iss ++
      ",preferred_username:" ++ serOpt p.preferred_username ++ ",nonce:" ++ serOpt p.nonce ++ ")"

/-- `IdTokenClaims`: the struct the received id_token is deserialized into. -/
structure IdTokenClaims where
  aud : String
  iss : String
  preferred_username : String
  nonce : String
deriving DecidableEq

/-- The wire form of a received id_token: either a decodable compact JWT or a
string that is not one (whose header cannot be decoded). -/
inductive IdTokenWire where
  | jwt (t : JwtToken IdTokenPayload)
  | undecodable (raw : String)
deriving DecidableEq

/-- `jsonwebtoken::decode_header`, as a total function: fails exactly on
undecodable wire tokens. -/
def decode_header : IdTokenWire → Option Alg
  | .jwt t => some t.alg
  | .undecodable _ => none

/-- `jsonwebtoken::Validation`: the fields this connector sets. -/
structure Validation where
  alg : Alg
  required_spec_claims : List String
  aud : List String
  iss : List String
deriving DecidableEq

/-- `Validation::new(alg)`: defaults require only `exp` and restrict nothing. -/
def Validation.new (alg : Alg) : Validation :=
  { alg := alg, required_spec_claims := ["exp"], aud := [], iss := [] }

/-- Presence of a named spec claim in the payload. -/
def hasClaim (p : IdTokenPayload) : String → Bool
  | "exp" => p.exp.isSome
  | "aud" => p.aud.isSome
  | "iss" => p.iss.isSome
  | _ => true

/-- `jsonwebtoken::decode::<IdTokenClaims>`: verify the signature (the header
algorithm must be the validation algorithm and the tag must recompute from the
secret), check the required spec claims, deserialize the claim struct (all of
its fields must be present), then check audience and issuer membership. -/
def jwt_decode (wire : IdTokenWire) (secret : String) (v : Validation) :
    Except String IdTokenClaims :=
  match wire with
  | .undecodable _ => .error "InvalidToken"
  | .jwt t =>
    if t.alg ≠ v.alg then .error "InvalidAlgorithm"
    else if t.sig ≠ hmacSign t.alg secret (DuoSer.ser t.payload) then .error "InvalidSignature"
    else if ¬ (v.required_spec_claims.all (hasClaim t.payload)) then
      .error "Missing required claim"
    else
      match t.payload.aud, t.payload.iss, t.payload.preferred_username, t.payload.nonce with
      | some aud, some iss, some pu, some nn =>
        if v.aud ≠ [] ∧ aud ∉ v.aud then .error "InvalidAudience"
        else if v.iss ≠ [] ∧ iss ∉ v.iss then .error "InvalidIssuer"
        else .ok ⟨aud, iss, pu, nn⟩
      | _, _, _, _ => .error "missing field"

/-- Modelled from the spec: `crypto::ct_eq`, a constant-time string comparison;
extensionally it is equality (constant time is not observable in this model). -/
def ct_eq (a b : String) : Bool := a == b

/-- `DuoClient`: per-attempt Duo WebSDK 4 client. -/
structure DuoClient where
  client_id : String
  client_secret : String
  api_host : String
  redirect_uri : String
  jwt_exp_seconds : Int
deriving DecidableEq

/-- `DuoClient::new`. -/
def DuoClient.new (client_id client_secret api_host redirect_uri : String) : DuoClient :=
  { client_id := client_id, client_secret := client_secret, api_host := api_host,
    redirect_uri := redirect_uri, jwt_exp_seconds := JWT_VALIDITY_SECS }

/-- `DuoClient::encode_duo_jwt`: sign a claim set with HS512 under the client
secret. HMAC signing with a byte-slice key cannot fail, so the error branch of
the source `match` is unreachable and the result is always `ok`. -/
def DuoClient.encode_duo_jwt {α : Type} [DuoSer α] (c : DuoClient) (jwt_payload : α) :
    Except String (JwtToken α) :=
  .ok ⟨.HS512, jwt_payload, hmacSign .HS512 c.client_secret (DuoSer.ser jwt_payload)⟩

/-- The client assertion built by `health_check` (lines 196-203). -/
def DuoClient.health_check_jwt_payload (c : DuoClient) (now : Int) (jwt_id : String) :
    ClientAssertionJwt :=
  { iss := c.client_id, sub := c.client_id, aud := healthEndpoint c.api_host,
    exp := now + c.jwt_exp_seconds, jti := jwt_id, iat := now }

/-- A health-check response body as decoded by serde into the untagged
`HealthCheckResponse`: the OK shape, the FAIL shape, or a body that decodes as
neither. -/
inductive HealthBody where
  | healthOK (stat : String) (timestamp : Int)
  | healthFail (stat : String) (code : Int) (timestamp : Int)
      (message : String) (message_detail : String)
  | malformed (raw : String)
deriving DecidableEq

/-- Result of an HTTP POST as seen by the caller: a transport error or a
response body. -/
inductive HttpResult (β : Type) where
  | transportError (msg : String)
  | response (body : β)
deriving DecidableEq

/-- `DuoClient::health_check`: response handling (lines 214-248). The request
side (assertion `health_check_jwt_payload` signed by `encode_duo_jwt`, posted
as a form) does not influence the local outcome, which depends only on the
verifier's answer `hres`. -/
def DuoClient.health_check (_c : DuoClient) (hres : HttpResult HealthBody) :
    Except String Unit :=
  match hres with
  | .transportError e => .error ("Error requesting Duo health check: " ++ e)
  | .response body =>
    match body with
    | .malformed e => .error ("Duo health check response decode error: " ++ e)
    | .healthFail _ _ _ message message_detail =>
      .error ("Duo health check FAIL response msg: " ++ message ++ ", detail: " ++ message_detail)
    | .healthOK stat _ =>
      if stat ≠ "OK" then
        .error "Duo health check returned OK-like body but did not contain an OK stat."
      else
        .ok ()

/-- A URL with its ordered query pairs (`url::Url` restricted to what this
connector builds: a parsed base plus `query_pairs_mut().append_pair` calls). -/
structure UrlQ where
  base : String
  query : List (String × String)
deriving DecidableEq

/-- `query_pairs_mut().append_pair`. -/
def UrlQ.append_pair (u : UrlQ) (k v : String) : UrlQ :=
  ⟨u.base, u.query ++ [(k, v)]⟩

/-- `DuoClient::make_authz_req_url`: build and sign the authorization request
claims, parse the authorize endpoint (`Url::parse` of
`https://{host}/oauth/v1/authorize` fails exactly when the host is empty), and
append the three query parameters. Pure: no network I/O. -/
def DuoClient.make_authz_req_url (c : DuoClient) (duo_username state nonce : String)
    (now : Int) : Except String UrlQ :=
  let jwt_payload : AuthUrlJwt :=
    { response_type := "code", scope := "openid", exp := now + c.jwt_exp_seconds,
      client_id := c.client_id, redirect_uri := c.redirect_uri, state := state,
      duo_uname := duo_username, iss := some c.client_id,
      aud := some (apiHostUrl c.api_host), nonce := nonce,
      use_duo_code_attribute := some false }
  match c.encode_duo_jwt jwt_payload with
  | .error e => .error e
  | .ok token =>
    if c.api_host = "" then .error "empty host"
    else
      let auth_url : UrlQ := ⟨authzEndpoint c.api_host, []⟩
      let auth_url := auth_url.append_pair "response_type" "code"
      let auth_url := auth_url.append_pair "client_id" c.client_id
      let auth_url := auth_url.append_pair "request" (compactJwt token)
      .ok auth_url

/-- The client assertion built by `exchange_authz_code_for_result`
(lines 308-315). -/
def DuoClient.exchange_jwt_payload (c : DuoClient) (now : Int) (jwt_id : String) :
    ClientAssertionJwt :=
  { iss := c.client_id, sub := c.client_id, aud := tokenEndpoint c.api_host,
    exp := now + c.jwt_exp_seconds, jti := jwt_id, iat := now }

/-- A token-endpoint response body: either one that decodes as
`IdTokenResponse` or a malformed one. -/
inductive TokenBody where
  | idToken (id_token : IdTokenWire) (access_token : String)
      (expires_in : Int) (token_type : String)
  | malformed (raw : String)
deriving DecidableEq

/-- Result of the POST to the token endpoint: a transport error or a response
with its HTTP status code and body. -/
inductive ExchangeHttp where
  | transportError (msg : String)
  | response (status : Nat) (body : TokenBody)
deriving DecidableEq

/-- `DuoClient::exchange_authz_code_for_result`: reject an empty code locally;
then, on the verifier's answer `xres`: transport error, non-200 status or
malformed body are errors; the id_token header is decoded with
`decode_header(..).unwrap()`, which PANICS when the header is undecodable; the
validation is built from the header's own algorithm with required claims
exp/aud/iss, audience the client id and issuer the token endpoint; decode
failure is an error; finally nonce and username must match in constant time. -/
def DuoClient.exchange_authz_code_for_result (c : DuoClient)
    (duo_code duo_username nonce : String) (xres : ExchangeHttp) : Outcome Unit :=
  if duo_code = "" then .err "Invalid Duo Code"
  else
    let token_url := tokenEndpoint c.api_host
    match xres with
    | .transportError e => .err ("Error exchanging Duo code: " ++ e)
    | .response status body =>
      if status ≠ 200 then .err ("Failure response from Duo: " ++ toString status)
      else
        match body with
        | .malformed e => .err ("Error decoding ID token response: " ++ e)
        | .idToken id_token _ _ _ =>
          match decode_header id_token with
          | none => .panic "called Result::unwrap() on an Err value: decode_header"
          | some alg =>
            let validation : Validation :=
              { Validation.new alg with
                  required_spec_claims := ["exp", "aud", "iss"],
                  aud := [c.client_id], iss := [token_url] }
            match jwt_decode id_token c.client_secret validation with
            | .error e => .err ("Failed to decode Duo token " ++ e)
            | .ok claims =>
              let matching_nonces := ct_eq nonce claims.nonce
              let matching_usernames := ct_eq duo_username claims.preferred_username
              if ¬ (matching_nonces && matching_usernames) then
                .err ("Error validating Duo user, expected " ++ duo_username ++ ", got " ++
                  claims.preferred_username)
              else .ok ()

/-- `TwoFactorDuoContext`: the persisted auth-context row, keyed by state. -/
structure TwoFactorDuoContext where
  state : String
  user_email : String
  nonce : String
  exp : Int
deriving DecidableEq

/-- The context store: the live rows, most recently saved first. -/
abbrev Store := List TwoFactorDuoContext

/-- Modelled from the spec: `TwoFactorDuoContext::find_by_state` (the db model
lives outside this source file) — read the record with the given state key. -/
def TwoFactorDuoContext.find_by_state (state : String) (store : Store) :
    Option TwoFactorDuoContext :=
  store.find? (fun r => r.state == state)

/-- Modelled from the spec: `TwoFactorDuoContext::delete` — remove the record
with this record's state key; best-effort, its errors are swallowed by the
callers (`.ok()`), so it is modelled as the pure removal. -/
def TwoFactorDuoContext.delete (ctx : TwoFactorDuoContext) (store : Store) : Store :=
  store.filter (fun r => r.state != ctx.state)

/-- Modelled from the spec: `TwoFactorDuoContext::save` — create a fully
written record with expiry `now + ttl`, failing on a state-key collision
(uniqueness of `state` among live records). -/
def TwoFactorDuoContext.save (state user_email nonce : String) (ttl : Int) (now : Int)
    (store : Store) : Except String Store :=
  if store.any (fun r => r.state == state) then .error "state collision"
  else .ok (⟨state, user_email, nonce, now + ttl⟩ :: store)

/-- Modelled from the spec: `TwoFactorDuoContext::purge_expired_duo_contexts` —
bulk delete every record whose expiry is in the past. -/
def TwoFactorDuoContext.purge_expired_duo_contexts (now : Int) (store : Store) : Store :=
  store.filter (fun r => !(decide (r.exp < now)))

/-- `DuoAuthContext`: the copy of a consumed context handed to the caller. -/
structure DuoAuthContext where
  state : String
  user_email : String
  nonce : String
  exp : Int
deriving DecidableEq

/-- `extract_context`: retrieve the context for a state and delete it from the
store; an expired context is deleted and reported as absent; a live one is
copied, deleted and returned. Returns the consumed copy and the new store. -/
def extract_context (state : String) (now : Int) (store : Store) :
    Option DuoAuthContext × Store :=
  match TwoFactorDuoContext.find_by_state state store with
  | none => (none, store)
  | some ctx =>
    if ctx.exp < now then
      (none, ctx.delete store)
    else
      let ret_ctx : DuoAuthContext :=
        { state := ctx.state, user_email := ctx.user_email, nonce := ctx.nonce, exp := ctx.exp }
      (some ret_ctx, ctx.delete store)

/-- `purge_duo_contexts`: the periodic sweep over the store. -/
def purge_duo_contexts (now : Int) (store : Store) : Store :=
  TwoFactorDuoContext.purge_expired_duo_contexts now store

/-- The security event kinds this connector can emit. -/
inductive EventType where
  | UserFailedLogIn2fa
deriving DecidableEq

/-- Result of one `validate_duo_login` call: the outcome, the security events
emitted (the `ErrorEvent` attached by `err!`), and the store afterwards. -/
structure VRes where
  outcome : Outcome Unit
  events : List EventType
  store : Store
deriving DecidableEq

/-- `get_duo_auth_url` (begin): resolve the per-user Duo credentials
(`get_duo_keys_email`, external — its result is the `creds` parameter, and its
error propagates via `?`); build the callback URL (`make_callback_url`,
depending on `CONFIG.domain()` — its result is the `callback` parameter); run
the health check; generate state and nonce (`srng`/`nrng` are the two RNG
draws); persist the context; build the authorize URL. -/
def get_duo_auth_url (email : String)
    (creds : Except String (String × String × String))
    (callback : Except String String)
    (hres : HttpResult HealthBody)
    (srng nrng : Nat → Nat) (now : Int) (store : Store) :
    Outcome UrlQ × Store :=
  match creds with
  | .error e => (.err e, store)
  | .ok (ik, sk, host) =>
    match callback with
    | .error e => (.err e, store)
    | .ok callback_url =>
      let client := DuoClient.new ik sk host callback_url
      match client.health_check hres with
      | .error e => (.err e, store)
      | .ok _ =>
        let state := generate_state_default srng
        let nonce := generate_state_default nrng
        match TwoFactorDuoContext.save state email nonce CTX_VALIDITY_SECS now store with
        | .error e => (.err ("Error storing Duo authentication context: " ++ e), store)
        | .ok store₂ =>
          match client.make_authz_req_url email state nonce now with
          | .error e => (.err e, store₂)
          | .ok url => (.ok url, store₂)

/-- Rust `email.to_lowercase()`: per-character lowercasing, defined by
structural recursion over the characters so that concrete instances evaluate
in the kernel (the emails involved are ASCII). -/
def lowercase (s : String) : String :=
  String.mk (s.data.map Char.toLower)

/-- Rust `str::split('|')` on a character list: the (possibly empty) pieces
between the pipes, with one more piece than there are pipes. Defined by
structural recursion so that concrete instances evaluate in the kernel. -/
def splitOnPipe : List Char → List (List Char)
  | [] => [[]]
  | c :: rest =>
    if c = '|' then [] :: splitOnPipe rest
    else
      match splitOnPipe rest with
      | [] => [[c]]
      | p :: ps => (c :: p) :: ps

/-- Rust `two_factor_token.split('|').collect::<Vec<&str>>()`. -/
def splitPipe (s : String) : List String :=
  (splitOnPipe s.data).map String.mk

/-- `validate_duo_login` (complete): lower-case the email; split the combined
token on every pipe and require exactly two parts; resolve credentials
(`creds`, error propagated by `?` with no event); build the callback URL
(`callback`, its `err!` carries no event); consume the context by state;
re-check user binding, state and expiry in constant time; health check (its
`err!` carries no event); exchange the code. The `err!`s tagged with
`EventType::UserFailedLogIn2fa` are exactly the ones carrying that event in
the source. -/
def validate_duo_login (email two_factor_token : String)
    (creds : Except String (String × String × String))
    (callback : Except String String)
    (now : Int) (hres : HttpResult HealthBody) (xres : ExchangeHttp)
    (store : Store) : VRes :=
  let lemail := lowercase email
  let split := splitPipe two_factor_token
  if split.length != 2 then
    ⟨.err "Invalid response length", [.UserFailedLogIn2fa], store⟩
  else
    let code := split.getD 0 ""
    let state := split.getD 1 ""
    match creds with
    | .error e => ⟨.err e, [], store⟩
    | .ok (ik, sk, host) =>
      match callback with
      | .error e => ⟨.err e, [], store⟩
      | .ok callback_url =>
        match extract_context state now store with
        | (none, store₂) =>
          ⟨.err "Error validating duo authentication", [.UserFailedLogIn2fa], store₂⟩
        | (some ctx, store₂) =>
          let matching_usernames := ct_eq lemail ctx.user_email
          let matching_states := ct_eq state ctx.state
          let unexpired_context := decide (now < ctx.exp)
          if ¬ (matching_usernames && matching_states && unexpired_context) then
            ⟨.err "Error validating duo authentication", [.UserFailedLogIn2fa], store₂⟩
          else
            let client := DuoClient.new ik sk host callback_url
            match client.health_check hres with
            | .error e => ⟨.err e, [], store₂⟩
            | .ok _ =>
              match client.exchange_authz_code_for_result code lemail ctx.nonce xres with
              | .ok _ => ⟨.ok (), [], store₂⟩
              | .err _ =>
                ⟨.err "Error validating duo authentication", [.UserFailedLogIn2fa], store₂⟩
              | .panic m => ⟨.panic m, [], store₂⟩

/-- The pool has exactly 62 characters. -/
theorem STATE_CHAR_POOL_length : STATE_CHAR_POOL.length = 62 := by decide

/-- C6: for every RNG stream and every length L with 16 <= L <= 1024,
`generate_state_len L` returns a string of exactly L characters drawn only
from the fixed 62-character pool; for every L outside that range it panics
(fatal precondition violation); and `generate_state_default` is
`generate_state_len` at length 36. -/
theorem generate_state_spec (rng : Nat → Nat) (L : Nat) :
    (MIN_STATE_SIZE ≤ L ∧ L ≤ MAX_STATE_SIZE →
      ∃ s, generate_state_len L rng = .ok s ∧ s.length = L ∧
        ∀ ch ∈ s.data, ch ∈ STATE_CHAR_POOL)
    ∧ ((L < MIN_STATE_SIZE ∨ MAX_STATE_SIZE < L) →
      ∃ msg, generate_state_len L rng = .panic msg)
    ∧ generate_state_len 36 rng = .ok (generate_state_default rng) := by
  refine ⟨?_, ?_, ?_⟩
  · rintro ⟨h1, h2⟩
    refine ⟨get_random_string STATE_CHAR_POOL L rng, ?_, ?_, ?_⟩
    · rw [generate_state_len, if_neg (by omega)]
    · simp [get_random_string, String.length]
    · intro ch hch
      simp only [get_random_string, List.mem_map, List.mem_range] at hch
      obtain ⟨i, _, rfl⟩ := hch
      have hlt : rng i % STATE_CHAR_POOL.length < STATE_CHAR_POOL.length := by
        rw [STATE_CHAR_POOL_length]
        exact Nat.mod_lt _ (by norm_num)
      rw [List.getD_eq_getElem _ _ hlt]
      exact List.getElem_mem hlt
  · intro h
    exact ⟨"Illegal Duo state size: " ++ toString L ++ ". Size must be 15 < size < 1025",
      by rw [generate_state_len, if_pos h]⟩
  · rw [generate_state_len, if_neg (by simp [MIN_STATE_SIZE, MAX_STATE_SIZE]),
      generate_state_default, STATE_LENGTH]

/-- Witness for C6: at length 16 with the constant-0 RNG stream the theorem
yields a 16-character all-pool string. -/
theorem generate_state_spec_witness :
    (MIN_STATE_SIZE ≤ 16 ∧ 16 ≤ MAX_STATE_SIZE) ∧
    (∃ s, generate_state_len 16 (fun _ => 0) = .ok s ∧ s.length = 16 ∧
      ∀ ch ∈ s.data, ch ∈ STATE_CHAR_POOL) :=
  ⟨by decide, (generate_state_spec (fun _ => 0) 16).1 (by decide)⟩

/-- C10: signing a claim set with `encode_duo_jwt` under the client secret and
then verifying the resulting token (`jwt_decode`) with the same secret, the
HS512 algorithm and matching audience/issuer expectations succeeds and yields
the original claims unchanged. -/
theorem encode_then_decode_roundtrip (c : DuoClient) (p : IdTokenPayload)
    (e : Int) (cid turl u nn : String)
    (hexp : p.exp = some e) (haud : p.aud = some cid) (hiss : p.iss = some turl)
    (hu : p.preferred_username = some u) (hn : p.nonce = some nn) :
    c.encode_duo_jwt p = .ok ⟨.HS512, p, hmacSign .HS512 c.client_secret (DuoSer.ser p)⟩
    ∧ jwt_decode (.jwt ⟨.HS512, p, hmacSign .HS512 c.client_secret (DuoSer.ser p)⟩)
        c.client_secret
        { alg := .HS512, required_spec_claims := ["exp", "aud", "iss"],
          aud := [cid], iss := [turl] }
      = .ok ⟨cid, turl, u, nn⟩ := by
  refine ⟨rfl, ?_⟩
  simp [jwt_decode, hasClaim, hexp, haud, hiss, hu, hn]

/-- Witness for C10 at a concrete payload and client. -/
theorem encode_then_decode_roundtrip_witness :
    ((⟨some 99, some "cid", some "turl", some "u", some "nn"⟩ : IdTokenPayload).exp = some 99)
    ∧ ((DuoClient.new "cid" "sk" "h" "cb").encode_duo_jwt
          (⟨some 99, some "cid", some "turl", some "u", some "nn"⟩ : IdTokenPayload)
        = .ok ⟨.HS512, ⟨some 99, some "cid", some "turl", some "u", some "nn"⟩,
            hmacSign .HS512 "sk" (DuoSer.ser
              (⟨some 99, some "cid", some "turl", some "u", some "nn"⟩ : IdTokenPayload))⟩
      ∧ jwt_decode
          (.jwt ⟨.HS512, ⟨some 99, some "cid", some "turl", some "u", some "nn"⟩,
            hmacSign .HS512 "sk" (DuoSer.ser
              (⟨some 99, some "cid", some "turl", some "u", some "nn"⟩ : IdTokenPayload))⟩)
          "sk"
          { alg := .HS512, required_spec_claims := ["exp", "aud", "iss"],
            aud := ["cid"], iss := ["turl"] }
        = .ok ⟨"cid", "turl", "u", "nn"⟩) :=
  ⟨rfl, encode_then_decode_roundtrip (DuoClient.new "cid" "sk" "h" "cb") _ 99 "cid" "turl" "u" "nn"
    rfl rfl rfl rfl rfl⟩

/-- After deleting a record whose key is `s`, no record with state `s` is
found. -/
theorem find_by_state_delete (s : String) (ctx : TwoFactorDuoContext) (store : Store)
    (h : ctx.state = s) :
    TwoFactorDuoContext.find_by_state s (ctx.delete store) = none := by
  rw [TwoFactorDuoContext.find_by_state, List.find?_eq_none]
  intro r hr
  rw [TwoFactorDuoContext.delete, List.mem_filter] at hr
  simp only [bne_iff_ne, ne_eq] at hr
  simp only [beq_iff_eq]
  exact fun he => hr.2 (by rw [he, h])


/-- Step lemma: a combined token that does not split into exactly two parts is
rejected immediately with the input-shape error and one failed-2FA event,
before the credential lookup, leaving the store unchanged. -/
theorem validate_step_shape {email tok : String}
    {creds : Except String (String × String × String)} {callback : Except String String}
    {now : Int} {hres : HttpResult HealthBody} {xres : ExchangeHttp} {store : Store}
    (h : (splitPipe tok).length ≠ 2) :
    validate_duo_login email tok creds callback now hres xres store
      = ⟨.err "Invalid response length", [.UserFailedLogIn2fa], store⟩ := by
  rw [validate_duo_login]
  simp [bne_iff_ne, h]

/-- Step lemma: with a well-shaped token, a credential-lookup failure
propagates its own error with no event, before the context is touched. -/
theorem validate_step_creds_error {email tok code state e : String}
    {callback : Except String String} {now : Int} {hres : HttpResult HealthBody}
    {xres : ExchangeHttp} {store : Store}
    (hsplit : splitPipe tok = [code, state]) :
    validate_duo_login email tok (.error e) callback now hres xres store
      = ⟨.err e, [], store⟩ := by
  rw [validate_duo_login]
  simp [hsplit]

/-- Step lemma: with a well-shaped token and resolved credentials, a
callback-URL failure propagates its own error with no event. -/
theorem validate_step_callback_error {email tok code state ik sk host e : String}
    {now : Int} {hres : HttpResult HealthBody} {xres : ExchangeHttp} {store : Store}
    (hsplit : splitPipe tok = [code, state]) :
    validate_duo_login email tok (.ok (ik, sk, host)) (.error e) now hres xres store
      = ⟨.err e, [], store⟩ := by
  rw [validate_duo_login]
  simp [hsplit]

/-- Step lemma: when no live context exists for the state, the consume fails
and the generic rejection with one failed-2FA event is returned. -/
theorem validate_step_miss {email tok code state ik sk host cb : String}
    {now : Int} {hres : HttpResult HealthBody} {xres : ExchangeHttp}
    {store store₂ : Store}
    (hsplit : splitPipe tok = [code, state])
    (hex : extract_context state now store = (none, store₂)) :
    validate_duo_login email tok (.ok (ik, sk, host)) (.ok cb) now hres xres store
      = ⟨.err "Error validating duo authentication", [.UserFailedLogIn2fa], store₂⟩ := by
  rw [validate_duo_login]
  simp [hsplit, hex]

/-- Step lemma: when the consumed context fails the defensive re-check
(user binding, state, expiry), the generic rejection with one failed-2FA
event is returned. -/
theorem validate_step_binding {email tok code state ik sk host cb : String}
    {now : Int} {hres : HttpResult HealthBody} {xres : ExchangeHttp}
    {store store₂ : Store} {ctx : DuoAuthContext}
    (hsplit : splitPipe tok = [code, state])
    (hex : extract_context state now store = (some ctx, store₂))
    (hb : (ct_eq (lowercase email) ctx.user_email && ct_eq state ctx.state
        && decide (now < ctx.exp)) = false) :
    validate_duo_login email tok (.ok (ik, sk, host)) (.ok cb) now hres xres store
      = ⟨.err "Error validating duo authentication", [.UserFailedLogIn2fa], store₂⟩ := by
  rw [validate_duo_login]
  simp [hsplit, hex, hb]

/-- Step lemma: when the re-check passes but the health check fails, its own
error message is propagated with no event, before any code exchange. -/
theorem validate_step_health {email tok code state ik sk host cb m : String}
    {now : Int} {hres : HttpResult HealthBody} {xres : ExchangeHttp}
    {store store₂ : Store} {ctx : DuoAuthContext}
    (hsplit : splitPipe tok = [code, state])
    (hex : extract_context state now store = (some ctx, store₂))
    (hb : (ct_eq (lowercase email) ctx.user_email && ct_eq state ctx.state
        && decide (now < ctx.exp)) = true)
    (hh : (DuoClient.new ik sk host cb).health_check hres = .error m) :
    validate_duo_login email tok (.ok (ik, sk, host)) (.ok cb) now hres xres store
      = ⟨.err m, [], store₂⟩ := by
  rw [validate_duo_login]
  simp [hsplit, hex, hb, hh]

/-- Step lemma: when the code exchange fails with an error, the generic
rejection with one failed-2FA event is returned. -/
theorem validate_step_exchange_err {email tok code state ik sk host cb m : String}
    {now : Int} {hres : HttpResult HealthBody} {xres : ExchangeHttp}
    {store store₂ : Store} {ctx : DuoAuthContext}
    (hsplit : splitPipe tok = [code, state])
    (hex : extract_context state now store = (some ctx, store₂))
    (hb : (ct_eq (lowercase email) ctx.user_email && ct_eq state ctx.state
        && decide (now < ctx.exp)) = true)
    (hh : (DuoClient.new ik sk host cb).health_check hres = .ok ())
    (hx : (DuoClient.new ik sk host cb).exchange_authz_code_for_result code
        (lowercase email) ctx.nonce xres = .err m) :
    validate_duo_login email tok (.ok (ik, sk, host)) (.ok cb) now hres xres store
      = ⟨.err "Error validating duo authentication", [.UserFailedLogIn2fa], store₂⟩ := by
  rw [validate_duo_login]
  simp [hsplit, hex, hb, hh, hx]

/-- Step lemma: when every check passes and the exchange succeeds, the login
succeeds with no event and the consumed store. -/
theorem validate_step_success {email tok code state ik sk host cb : String}
    {now : Int} {hres : HttpResult HealthBody} {xres : ExchangeHttp}
    {store store₂ : Store} {ctx : DuoAuthContext}
    (hsplit : splitPipe tok = [code, state])
    (hex : extract_context state now store = (some ctx, store₂))
    (hb : (ct_eq (lowercase email) ctx.user_email && ct_eq state ctx.state
        && decide (now < ctx.exp)) = true)
    (hh : (DuoClient.new ik sk host cb).health_check hres = .ok ())
    (hx : (DuoClient.new ik sk host cb).exchange_authz_code_for_result code
        (lowercase email) ctx.nonce xres = .ok ()) :
    validate_duo_login email tok (.ok (ik, sk, host)) (.ok cb) now hres xres store
      = ⟨.ok (), [], store₂⟩ := by
  rw [validate_duo_login]
  simp [hsplit, hex, hb, hh, hx]

/-- Step lemma: a panic inside the exchange (undecodable id_token header)
propagates as a panic, with no event emitted. -/
theorem validate_step_exchange_panic {email tok code state ik sk host cb m : String}
    {now : Int} {hres : HttpResult HealthBody} {xres : ExchangeHttp}
    {store store₂ : Store} {ctx : DuoAuthContext}
    (hsplit : splitPipe tok = [code, state])
    (hex : extract_context state now store = (some ctx, store₂))
    (hb : (ct_eq (lowercase email) ctx.user_email && ct_eq state ctx.state
        && decide (now < ctx.exp)) = true)
    (hh : (DuoClient.new ik sk host cb).health_check hres = .ok ())
    (hx : (DuoClient.new ik sk host cb).exchange_authz_code_for_result code
        (lowercase email) ctx.nonce xres = .panic m) :
    validate_duo_login email tok (.ok (ik, sk, host)) (.ok cb) now hres xres store
      = ⟨.panic m, [], store₂⟩ := by
  rw [validate_duo_login]
  simp [hsplit, hex, hb, hh, hx]

/-- Step lemma for begin: a failing health check aborts `get_duo_auth_url`
with that error and the store unchanged, for every RNG stream. -/
theorem begin_step_health {email ik sk host cb m : String}
    {hres : HttpResult HealthBody} {srng nrng : Nat → Nat} {now : Int} {store : Store}
    (hh : (DuoClient.new ik sk host cb).health_check hres = .error m) :
    get_duo_auth_url email (.ok (ik, sk, host)) (.ok cb) hres srng nrng now store
      = (.err m, store) := by
  simp [get_duo_auth_url, hh]

/-- C2: consuming a context is read-then-delete: whenever `extract_context`
runs for a state, no record for that state remains in the resulting store
(whether the record was absent, expired or valid), so a later
`validate_duo_login` whose combined token carries the same state can never
succeed — a state cannot be replayed. -/
theorem extract_context_consumes (state : String) (now : Int) (store : Store) :
    TwoFactorDuoContext.find_by_state state (extract_context state now store).2 = none
    ∧ ∀ (email tok code : String) (creds : Except String (String × String × String))
        (callback : Except String String) (now₂ : Int)
        (hres : HttpResult HealthBody) (xres : ExchangeHttp),
        splitPipe tok = [code, state] →
        (validate_duo_login email tok creds callback now₂ hres xres
          (extract_context state now store).2).outcome.isOk = false := by
  have h1 : TwoFactorDuoContext.find_by_state state (extract_context state now store).2
      = none := by
    rw [extract_context]
    cases hf : TwoFactorDuoContext.find_by_state state store with
    | none => simpa using hf
    | some ctx =>
      have hs : ctx.state = state := by
        rw [TwoFactorDuoContext.find_by_state] at hf
        have hp := @List.find?_some _ (fun r => r.state == state) ctx store hf
        exact beq_iff_eq.mp hp
      by_cases hexp : ctx.exp < now
      · simp [hexp, find_by_state_delete state ctx store hs]
      · simp [hexp, find_by_state_delete state ctx store hs]
  refine ⟨h1, ?_⟩
  intro email tok code creds callback now₂ hres xres hsplit
  have h2 : extract_context state now₂ (extract_context state now store).2
      = (none, (extract_context state now store).2) := by
    rw [extract_context, h1]
  cases creds with
  | error e =>
    rw [validate_step_creds_error hsplit]
    rfl
  | ok t =>
    obtain ⟨ik, sk, host⟩ := t
    cases callback with
    | error e =>
      rw [validate_step_callback_error hsplit]
      rfl
    | ok cb =>
      rw [validate_step_miss hsplit h2]
      rfl

/-- Witness for C2 at a concrete state, store and replay attempt. -/
theorem extract_context_consumes_witness :
    TwoFactorDuoContext.find_by_state "st"
      (extract_context "st" 0 [⟨"st", "u@e", "n", 5⟩]).2 = none
    ∧ (validate_duo_login "u@e" "c|st" (.ok ("ik", "sk", "h")) (.ok "cb") 0
        (.transportError "t") (.transportError "t")
        (extract_context "st" 0 [⟨"st", "u@e", "n", 5⟩]).2).outcome.isOk = false :=
  ⟨(extract_context_consumes "st" 0 [⟨"st", "u@e", "n", 5⟩]).1,
    (extract_context_consumes "st" 0 [⟨"st", "u@e", "n", 5⟩]).2 "u@e" "c|st" "c"
      (.ok ("ik", "sk", "h")) (.ok "cb") 0 (.transportError "t") (.transportError "t")
      (by decide)⟩

/-- C7: if the health check fails, `get_duo_auth_url` (begin) returns a
failure with the store unchanged and a result independent of the state/nonce
RNG streams (so the abort happens before generation and persistence), and
`validate_duo_login` (complete) never succeeds and its result is independent
of the token-endpoint answer (so the code exchange is never attempted). -/
theorem health_check_gates_flow (email : String)
    (creds : Except String (String × String × String))
    (callback : Except String String) (hres : HttpResult HealthBody)
    (now : Int) (store : Store) (m : String)
    (hh : ∀ c : DuoClient, c.health_check hres = .error m) :
    (∀ srng nrng srng' nrng',
      get_duo_auth_url email creds callback hres srng nrng now store
        = get_duo_auth_url email creds callback hres srng' nrng' now store
      ∧ (get_duo_auth_url email creds callback hres srng nrng now store).2 = store
      ∧ (get_duo_auth_url email creds callback hres srng nrng now store).1.isOk = false)
    ∧ (∀ tok xres xres',
      validate_duo_login email tok creds callback now hres xres store
        = validate_duo_login email tok creds callback now hres xres' store
      ∧ (validate_duo_login email tok creds callback now hres xres store).outcome.isOk
          = false) := by
  constructor
  · intro srng nrng srng' nrng'
    cases creds with
    | error e => exact ⟨rfl, rfl, rfl⟩
    | ok t =>
      obtain ⟨ik, sk, host⟩ := t
      cases callback with
      | error e => exact ⟨rfl, rfl, rfl⟩
      | ok cb =>
        rw [begin_step_health (hh _), begin_step_health (hh _)]
        exact ⟨rfl, rfl, rfl⟩
  · intro tok xres xres'
    by_cases hlen : (splitPipe tok).length = 2
    · obtain ⟨code, state, hsplit⟩ : ∃ code state, splitPipe tok = [code, state] := by
        match hl : splitPipe tok, hlen with
        | [code, state], _ => exact ⟨code, state, rfl⟩
      cases creds with
      | error e =>
        rw [validate_step_creds_error hsplit, validate_step_creds_error hsplit]
        exact ⟨rfl, rfl⟩
      | ok t =>
        obtain ⟨ik, sk, host⟩ := t
        cases callback with
        | error e =>
          rw [validate_step_callback_error hsplit, validate_step_callback_error hsplit]
          exact ⟨rfl, rfl⟩
        | ok cb =>
          cases hex : extract_context state now store with
          | mk octx store₂ =>
            cases octx with
            | none =>
              rw [validate_step_miss hsplit hex, validate_step_miss hsplit hex]
              exact ⟨rfl, rfl⟩
            | some ctx =>
              cases hb : (ct_eq (lowercase email) ctx.user_email && ct_eq state ctx.state
                  && decide (now < ctx.exp)) with
              | false =>
                rw [validate_step_binding hsplit hex hb,
                  validate_step_binding hsplit hex hb]
                exact ⟨rfl, rfl⟩
              | true =>
                rw [validate_step_health hsplit hex hb (hh _),
                  validate_step_health hsplit hex hb (hh _)]
                exact ⟨rfl, rfl⟩
    · rw [validate_step_shape hlen, validate_step_shape hlen]
      exact ⟨rfl, rfl⟩

/-- Witness for C7 at a concrete failing health check. -/
theorem health_check_gates_flow_witness :
    (∀ c : DuoOidc.DuoClient, c.health_check (.transportError "down")
      = .error "Error requesting Duo health check: down")
    ∧ ((get_duo_auth_url "u@e" (.ok ("ik", "sk", "h")) (.ok "cb")
          (.transportError "down") (fun _ => 0) (fun _ => 1) 0 []).2 = []
      ∧ (get_duo_auth_url "u@e" (.ok ("ik", "sk", "h")) (.ok "cb")
          (.transportError "down") (fun _ => 0) (fun _ => 1) 0 []).1.isOk = false) :=
  ⟨fun _ => rfl,
    ((health_check_gates_flow "u@e" (.ok ("ik", "sk", "h")) (.ok "cb")
        (.transportError "down") 0 [] "Error requesting Duo health check: down"
        (fun _ => rfl)).1 (fun _ => 0) (fun _ => 1) (fun _ => 0) (fun _ => 1)).2⟩

/-- C1 counterexample: at a concrete input whose context and binding checks
pass but whose health check fails, complete is rejected with the health
check's own error message and NO failed-2FA security event — not the
identical generic rejection plus one security event. -/
theorem validate_event_uniformity_cx :
    validate_duo_login "u@e" "c|st" (.ok ("ik", "sk", "h")) (.ok "cb") 0
        (.transportError "down") (.transportError "x") [⟨"st", "u@e", "n", 100⟩]
      = ⟨.err "Error requesting Duo health check: down", [], []⟩
    ∧ ((Outcome.err "Error requesting Duo health check: down" : Outcome Unit)
        ≠ Outcome.err "Error validating duo authentication")
    ∧ ([] : List EventType) ≠ [.UserFailedLogIn2fa] := by
  refine ⟨by decide, by decide, by decide⟩

/-- C1 (amended): on complete, the input-shape failure is rejected with the
fixed shape message and exactly one failed-2FA event; the missing/expired
context, binding-mismatch and code-exchange failures are each rejected with
the identical generic message and exactly one failed-2FA event; the
health-check failure propagates its own error message and emits NO event
(and likewise the credential and callback failures, not listed by the claim,
propagate without an event). -/
theorem validate_event_uniformity (email tok : String)
    (creds : Except String (String × String × String))
    (callback : Except String String) (now : Int) (hres : HttpResult HealthBody)
    (xres : ExchangeHttp) (store : Store) :
    ((splitPipe tok).length ≠ 2 →
      validate_duo_login email tok creds callback now hres xres store
        = ⟨.err "Invalid response length", [.UserFailedLogIn2fa], store⟩)
    ∧ (∀ code state ik sk host cb store₂,
        splitPipe tok = [code, state] →
        creds = .ok (ik, sk, host) → callback = .ok cb →
        extract_context state now store = (none, store₂) →
        validate_duo_login email tok creds callback now hres xres store
          = ⟨.err "Error validating duo authentication", [.UserFailedLogIn2fa], store₂⟩)
    ∧ (∀ code state ik sk host cb store₂ ctx,
        splitPipe tok = [code, state] →
        creds = .ok (ik, sk, host) → callback = .ok cb →
        extract_context state now store = (some ctx, store₂) →
        (ct_eq (lowercase email) ctx.user_email && ct_eq state ctx.state
          && decide (now < ctx.exp)) = false →
        validate_duo_login email tok creds callback now hres xres store
          = ⟨.err "Error validating duo authentication", [.UserFailedLogIn2fa], store₂⟩)
    ∧ (∀ code state ik sk host cb store₂ ctx m,
        splitPipe tok = [code, state] →
        creds = .ok (ik, sk, host) → callback = .ok cb →
        extract_context state now store = (some ctx, store₂) →
        (ct_eq (lowercase email) ctx.user_email && ct_eq state ctx.state
          && decide (now < ctx.exp)) = true →
        (DuoClient.new ik sk host cb).health_check hres = .error m →
        validate_duo_login email tok creds callback now hres xres store
          = ⟨.err m, [], store₂⟩)
    ∧ (∀ code state ik sk host cb store₂ ctx m,
        splitPipe tok = [code, state] →
        creds = .ok (ik, sk, host) → callback = .ok cb →
        extract_context state now store = (some ctx, store₂) →
        (ct_eq (lowercase email) ctx.user_email && ct_eq state ctx.state
          && decide (now < ctx.exp)) = true →
        (DuoClient.new ik sk host cb).health_check hres = .ok () →
        (DuoClient.new ik sk host cb).exchange_authz_code_for_result code
          (lowercase email) ctx.nonce xres = .err m →
        validate_duo_login email tok creds callback now hres xres store
          = ⟨.err "Error validating duo authentication", [.UserFailedLogIn2fa], store₂⟩) := by
  refine ⟨?_, ?_, ?_, ?_, ?_⟩
  · intro h
    exact validate_step_shape h
  · rintro code state ik sk host cb store₂ hsplit rfl rfl hex
    exact validate_step_miss hsplit hex
  · rintro code state ik sk host cb store₂ ctx hsplit rfl rfl hex hb
    exact validate_step_binding hsplit hex hb
  · rintro code state ik sk host cb store₂ ctx m hsplit rfl rfl hex hb hh
    exact validate_step_health hsplit hex hb hh
  · rintro code state ik sk host cb store₂ ctx m hsplit rfl rfl hex hb hh hx
    exact validate_step_exchange_err hsplit hex hb hh hx

/-- Witness for C1 at the input-shape conjunct with a separator-free token. -/
theorem validate_event_uniformity_witness :
    (splitPipe "abc").length ≠ 2
    ∧ validate_duo_login "u@e" "abc" (.error "nocreds") (.ok "cb") 0
        (.transportError "t") (.transportError "t") []
      = ⟨.err "Invalid response length", [.UserFailedLogIn2fa], []⟩ :=
  ⟨by decide,
    (validate_event_uniformity "u@e" "abc" (.error "nocreds") (.ok "cb") 0
      (.transportError "t") (.transportError "t") []).1 (by decide)⟩

/-- C5 counterexample: the token `"x|"` has exactly one separator but an EMPTY
second part, yet it passes the shape check (split length 2) and complete
proceeds to the credential lookup (whose error surfaces) instead of failing
immediately on shape. -/
theorem validate_token_shape_cx :
    splitPipe "x|" = ["x", ""]
    ∧ validate_duo_login "u@e" "x|" (.error "credential lookup reached") (.ok "cb") 0
        (.transportError "t") (.transportError "t") []
      = ⟨.err "credential lookup reached", [], []⟩ := by
  refine ⟨by decide, by decide⟩

/-- C5 (amended): complete accepts a combined token only of the shape
`<code>|<state>` with exactly one separator; a token with zero or several
separators is an immediate hard failure with the failed-login event, before
any credential lookup, with the store untouched. The two parts may however be
EMPTY: an empty code passes the shape gate, reaches the code exchange after
the credential lookup and the context consume, and only fails there (with the
generic rejection and event); an empty state likewise proceeds to the context
lookup. -/
theorem validate_token_shape (email tok : String)
    (creds : Except String (String × String × String))
    (callback : Except String String) (now : Int) (hres : HttpResult HealthBody)
    (xres : ExchangeHttp) (store : Store) :
    ((splitPipe tok).length ≠ 2 →
      validate_duo_login email tok creds callback now hres xres store
        = ⟨.err "Invalid response length", [.UserFailedLogIn2fa], store⟩)
    ∧ (∀ state ik sk host cb store₂ ctx,
        splitPipe tok = ["", state] →
        creds = .ok (ik, sk, host) → callback = .ok cb →
        extract_context state now store = (some ctx, store₂) →
        (ct_eq (lowercase email) ctx.user_email && ct_eq state ctx.state
          && decide (now < ctx.exp)) = true →
        (DuoClient.new ik sk host cb).health_check hres = .ok () →
        validate_duo_login email tok creds callback now hres xres store
          = ⟨.err "Error validating duo authentication", [.UserFailedLogIn2fa], store₂⟩) := by
  refine ⟨?_, ?_⟩
  · intro h
    exact validate_step_shape h
  · rintro state ik sk host cb store₂ ctx hsplit rfl rfl hex hb hh
    exact @validate_step_exchange_err email tok "" state ik sk host cb "Invalid Duo Code"
      now hres xres store store₂ ctx hsplit hex hb hh rfl

/-- Witness for C5 at both conjuncts: a separator-free token fails on shape,
and an empty-code token reaches the exchange and fails there. -/
theorem validate_token_shape_witness :
    (splitPipe "abc").length ≠ 2
    ∧ validate_duo_login "u@e" "abc" (.ok ("ik", "sk", "h")) (.ok "cb") 0
        (.transportError "t") (.transportError "t") []
      = ⟨.err "Invalid response length", [.UserFailedLogIn2fa], []⟩
    ∧ validate_duo_login "u@e" "|st" (.ok ("ik", "sk", "h")) (.ok "cb") 0
        (.response (.healthOK "OK" 1)) (.transportError "t") [⟨"st", "u@e", "n", 9⟩]
      = ⟨.err "Error validating duo authentication", [.UserFailedLogIn2fa], []⟩ :=
  ⟨by decide,
    (validate_token_shape "u@e" "abc" (.ok ("ik", "sk", "h")) (.ok "cb") 0
      (.transportError "t") (.transportError "t") []).1 (by decide),
    (validate_token_shape "u@e" "|st" (.ok ("ik", "sk", "h")) (.ok "cb") 0
      (.response (.healthOK "OK" 1)) (.transportError "t") [⟨"st", "u@e", "n", 9⟩]).2
      "st" "ik" "sk" "h" "cb" [] ⟨"st", "u@e", "n", 9⟩ (by decide) rfl rfl (by decide)
      (by decide) rfl⟩

/-- C8 counterexample: begin persists the email EXACTLY as supplied, so for a
mixed-case email the persisted context does NOT pass complete's re-check even
when the very same email is supplied to complete: complete lowercases the
supplied address, the stored binding keeps its original casing, and the
constant-time comparison fails, rejecting the login with the generic message
and a failed-2FA event. -/
theorem email_binding_cx :
    (get_duo_auth_url "User@E.c" (.ok ("ik", "sk", "h")) (.ok "cb")
        (.response (.healthOK "OK" 1)) (fun _ => 0) (fun _ => 0) 0 []).2
      = [⟨"000000000000000000000000000000000000", "User@E.c",
          "000000000000000000000000000000000000", 300⟩]
    ∧ (get_duo_auth_url "User@E.c" (.ok ("ik", "sk", "h")) (.ok "cb")
        (.response (.healthOK "OK" 1)) (fun _ => 0) (fun _ => 0) 0 []).1.isOk = true
    ∧ validate_duo_login "User@E.c" "c|000000000000000000000000000000000000"
        (.ok ("ik", "sk", "h")) (.ok "cb") 1 (.response (.healthOK "OK" 1))
        (.transportError "x")
        [⟨"000000000000000000000000000000000000", "User@E.c",
          "000000000000000000000000000000000000", 300⟩]
      = ⟨.err "Error validating duo authentication", [.UserFailedLogIn2fa], []⟩ := by
  refine ⟨by decide, by decide, by decide⟩

/-- C8 (amended): the binding IS case-insensitive in the email supplied to
complete provided the context stores the lowercase form (as in production,
where begin receives an already-lowercased address): complete lowercases the
supplied email before the constant-time comparison with the stored binding,
so any letter-casing whose lowercase equals the stored email passes the
re-check and the flow completes. -/
theorem email_binding_case_insensitive (email tok code state ik sk host cb : String)
    (now : Int) (hres : HttpResult HealthBody) (xres : ExchangeHttp)
    (store store₂ : Store) (ctx : DuoAuthContext)
    (hsplit : splitPipe tok = [code, state])
    (hex : extract_context state now store = (some ctx, store₂))
    (huser : ctx.user_email = lowercase email)
    (hstate : ctx.state = state)
    (hexp : now < ctx.exp)
    (hh : (DuoClient.new ik sk host cb).health_check hres = .ok ())
    (hx : (DuoClient.new ik sk host cb).exchange_authz_code_for_result code
        (lowercase email) ctx.nonce xres = .ok ()) :
    validate_duo_login email tok (.ok (ik, sk, host)) (.ok cb) now hres xres store
      = ⟨.ok (), [], store₂⟩ := by
  refine validate_step_success hsplit hex ?_ hh hx
  simp [ct_eq, huser, hstate, hexp]

/-- Witness for C8 at a mixed-case supplied email over a lowercase stored
binding, with a verifier answer carrying a matching signed id_token. -/
theorem email_binding_case_insensitive_witness :
    (⟨"st", "user@e.c", "n1", 100⟩ : DuoAuthContext).user_email = lowercase "UsEr@E.c"
    ∧ validate_duo_login "UsEr@E.c" "c|st" (.ok ("ik", "sk", "h")) (.ok "cb") 0
        (.response (.healthOK "OK" 1))
        (.response 200 (.idToken (.jwt ⟨.HS512,
            ⟨some 5, some "ik", some "https://h/oauth/v1/token", some "user@e.c", some "n1"⟩,
            hmacSign .HS512 "sk" (DuoSer.ser (⟨some 5, some "ik",
              some "https://h/oauth/v1/token", some "user@e.c", some "n1"⟩ : IdTokenPayload))⟩)
          "at" 3600 "Bearer"))
        [⟨"st", "user@e.c", "n1", 100⟩]
      = ⟨.ok (), [], []⟩ :=
  ⟨by decide,
    email_binding_case_insensitive "UsEr@E.c" "c|st" "c" "st" "ik" "sk" "h" "cb" 0
      _ _ [⟨"st", "user@e.c", "n1", 100⟩] [] ⟨"st", "user@e.c", "n1", 100⟩
      (by decide) (by decide) (by decide) rfl (by decide) rfl (by decide)⟩

/-- Reduction lemma: with a non-empty code, a 200 response and a decodable
id_token, the exchange outcome is the validation verdict built from a
`Validation` whose algorithm is the token header's own algorithm, with
required claims exp/aud/iss, audience the client id and issuer the token
endpoint, followed by the constant-time nonce/username comparison. -/
theorem exchange_step_decode (c : DuoClient) {code u n a_t t_t : String} {ei : Int}
    {w : IdTokenWire} {alg : Alg} (hcode : code ≠ "") (hw : decode_header w = some alg) :
    c.exchange_authz_code_for_result code u n (.response 200 (.idToken w a_t ei t_t))
      = match jwt_decode w c.client_secret
          { alg := alg, required_spec_claims := ["exp", "aud", "iss"],
            aud := [c.client_id], iss := [tokenEndpoint c.api_host] } with
        | .error e => .err ("Failed to decode Duo token " ++ e)
        | .ok claims =>
          if ¬ (ct_eq n claims.nonce && ct_eq u claims.preferred_username) then
            .err ("Error validating Duo user, expected " ++ u ++ ", got "
              ++ claims.preferred_username)
          else .ok () := by
  rw [DuoClient.exchange_authz_code_for_result]
  simp [hcode, hw, Validation.new]

/-- C3 counterexample: the verification algorithm is NOT pinned to HS512
independently of the received token: a token whose header declares HS256, and
which verifies under HS256, is accepted by the exchange, because the
validation algorithm is taken from the received token's own header. -/
theorem exchange_alg_not_pinned_cx :
    (DuoClient.new "ik" "sk" "h" "cb").exchange_authz_code_for_result "c" "u" "n"
        (.response 200 (.idToken (.jwt ⟨.HS256,
            ⟨some 5, some "ik", some "https://h/oauth/v1/token", some "u", some "n"⟩,
            hmacSign .HS256 "sk" (DuoSer.ser (⟨some 5, some "ik",
              some "https://h/oauth/v1/token", some "u", some "n"⟩ : IdTokenPayload))⟩)
          "at" 3600 "Bearer"))
      = .ok ()
    ∧ Alg.HS256 ≠ Alg.HS512 := by
  refine ⟨by decide, by decide⟩

/-- C3 (amended): when validating the received id_token, the exchange verifies
the signature against the shared secret with the verification algorithm taken
from the received token's OWN header (not pinned independently of it — the
algorithm-confusion risk flagged in the design notes): a token properly
signed under ANY header algorithm is accepted when its expiry, audience and
issuer claims are present, audience = client id, issuer = the token endpoint
URL and nonce/username match; and a bad signature, a missing expiry claim, a
wrong audience or a wrong issuer are each a hard failure. -/
theorem exchange_validation (c : DuoClient) (code u n a_t t_t : String) (ei : Int)
    (alg : Alg) (p : IdTokenPayload) (sig : String) (hcode : code ≠ "") :
    (∀ e pu nn, sig = hmacSign alg c.client_secret (DuoSer.ser p) →
      p.exp = some e → p.aud = some c.client_id →
      p.iss = some (tokenEndpoint c.api_host) →
      p.preferred_username = some pu → p.nonce = some nn →
      ct_eq n nn = true → ct_eq u pu = true →
      c.exchange_authz_code_for_result code u n
        (.response 200 (.idToken (.jwt ⟨alg, p, sig⟩) a_t ei t_t)) = .ok ())
    ∧ (sig ≠ hmacSign alg c.client_secret (DuoSer.ser p) →
      (c.exchange_authz_code_for_result code u n
        (.response 200 (.idToken (.jwt ⟨alg, p, sig⟩) a_t ei t_t))).isErr = true)
    ∧ (p.exp = none →
      (c.exchange_authz_code_for_result code u n
        (.response 200 (.idToken (.jwt ⟨alg, p, sig⟩) a_t ei t_t))).isErr = true)
    ∧ (p.aud ≠ some c.client_id →
      (c.exchange_authz_code_for_result code u n
        (.response 200 (.idToken (.jwt ⟨alg, p, sig⟩) a_t ei t_t))).isErr = true)
    ∧ (p.iss ≠ some (tokenEndpoint c.api_host) →
      (c.exchange_authz_code_for_result code u n
        (.response 200 (.idToken (.jwt ⟨alg, p, sig⟩) a_t ei t_t))).isErr = true) := by
  refine ⟨?_, ?_, ?_, ?_, ?_⟩
  · intro e pu nn hsig hexp haud hiss hpu hnn hn hu2
    rw [exchange_step_decode c hcode (show decode_header (.jwt ⟨alg, p, sig⟩) = some alg from rfl)]
    simp [jwt_decode, hasClaim, hsig, hexp, haud, hiss, hpu, hnn, hn, hu2]
  · intro hsig
    rw [exchange_step_decode c hcode (show decode_header (.jwt ⟨alg, p, sig⟩) = some alg from rfl)]
    simp [jwt_decode, hsig, Outcome.isErr]
  · intro hexp
    by_cases hsig : sig = hmacSign alg c.client_secret (DuoSer.ser p)
    · rw [exchange_step_decode c hcode (show decode_header (.jwt ⟨alg, p, sig⟩) = some alg from rfl)]
      simp [jwt_decode, hasClaim, hsig, hexp, Outcome.isErr]
    · rw [exchange_step_decode c hcode (show decode_header (.jwt ⟨alg, p, sig⟩) = some alg from rfl)]
      simp [jwt_decode, hsig, Outcome.isErr]
  · intro haud
    by_cases hsig : sig = hmacSign alg c.client_secret (DuoSer.ser p)
    · rw [exchange_step_decode c hcode (show decode_header (.jwt ⟨alg, p, sig⟩) = some alg from rfl)]
      rcases hexp : p.exp with _ | e <;>
      rcases hiss : p.iss with _ | i <;>
      rcases hpu : p.preferred_username with _ | pu <;>
      rcases hnn : p.nonce with _ | nn <;>
      rcases haud2 : p.aud with _ | a <;>
        simp_all [jwt_decode, hasClaim, Outcome.isErr]
    · rw [exchange_step_decode c hcode (show decode_header (.jwt ⟨alg, p, sig⟩) = some alg from rfl)]
      simp [jwt_decode, hsig, Outcome.isErr]
  · intro hiss
    by_cases hsig : sig = hmacSign alg c.client_secret (DuoSer.ser p)
    · rw [exchange_step_decode c hcode (show decode_header (.jwt ⟨alg, p, sig⟩) = some alg from rfl)]
      rcases hexp : p.exp with _ | e <;>
      rcases haud : p.aud with _ | a <;>
      rcases hpu : p.preferred_username with _ | pu <;>
      rcases hnn : p.nonce with _ | nn <;>
      rcases hiss2 : p.iss with _ | i <;>
        simp_all [jwt_decode, hasClaim, Outcome.isErr]
      all_goals by_cases hac : a = c.client_id <;> simp [hac]
    · rw [exchange_step_decode c hcode (show decode_header (.jwt ⟨alg, p, sig⟩) = some alg from rfl)]
      simp [jwt_decode, hsig, Outcome.isErr]

/-- Witness for C3: a properly signed HS384-headed token with matching claims
is accepted. -/
theorem exchange_validation_witness :
    ("c" ≠ "")
    ∧ (DuoClient.new "ik" "sk" "h" "cb").exchange_authz_code_for_result "c" "u" "n"
        (.response 200 (.idToken (.jwt ⟨.HS384,
            ⟨some 5, some "ik", some "https://h/oauth/v1/token", some "u", some "n"⟩,
            hmacSign .HS384 "sk" (DuoSer.ser (⟨some 5, some "ik",
              some "https://h/oauth/v1/token", some "u", some "n"⟩ : IdTokenPayload))⟩)
          "at" 3600 "Bearer"))
      = .ok () :=
  ⟨by decide,
    (exchange_validation (DuoClient.new "ik" "sk" "h" "cb") "c" "u" "n" "at" "Bearer" 3600
      .HS384 ⟨some 5, some "ik", some "https://h/oauth/v1/token", some "u", some "n"⟩
      (hmacSign .HS384 "sk" (DuoSer.ser (⟨some 5, some "ik",
        some "https://h/oauth/v1/token", some "u", some "n"⟩ : IdTokenPayload)))
      (by decide)).1 5 "u" "n" rfl rfl rfl rfl rfl rfl (by decide) (by decide)⟩

/-- C4 (code bug): a transport error, a malformed health-check body and a
malformed token-endpoint body are hard-failure errors, but an id_token whose
JWT header cannot be decoded PANICS (`decode_header(..).unwrap()` on the
attacker-controlled response) instead of returning an error. -/
theorem exchange_undecodable_header_panics :
    (DuoClient.new "ik" "sk" "h" "cb").health_check (.response (.malformed "not json"))
      = .error "Duo health check response decode error: not json"
    ∧ (DuoClient.new "ik" "sk" "h" "cb").exchange_authz_code_for_result "c" "u" "n"
        (.response 200 (.malformed "not json"))
      = .err "Error decoding ID token response: not json"
    ∧ (DuoClient.new "ik" "sk" "h" "cb").exchange_authz_code_for_result "c" "u" "n"
        (.response 200 (.idToken (.undecodable "garbage") "at" 3600 "Bearer"))
      = .panic "called Result::unwrap() on an Err value: decode_header" := by
  refine ⟨rfl, by decide, by decide⟩

/-- C9: `make_authz_req_url` is pure (a function with no I/O by construction)
and, for every username/state/nonce, returns a URL on the authorize endpoint
carrying exactly the query parameters `response_type=code`, `client_id` and
`request=<signed JWT>`, where the JWT claims have response_type "code", scope
"openid", issuer = client id, audience = `https://<api host>`, the given
state, username and nonce, and the legacy code-delivery flag forced
(`use_duo_code_attribute = some false`). -/
theorem make_authz_req_url_spec (c : DuoClient) (duo_username state nonce : String)
    (now : Int) (hhost : c.api_host ≠ "") (P : AuthUrlJwt)
    (hP : P =
      { response_type := "code", scope := "openid",
        exp := now + c.jwt_exp_seconds, client_id := c.client_id,
        redirect_uri := c.redirect_uri, state := state, duo_uname := duo_username,
        iss := some c.client_id, aud := some (apiHostUrl c.api_host),
        nonce := nonce, use_duo_code_attribute := some false }) :
    c.make_authz_req_url duo_username state nonce now
      = .ok ⟨authzEndpoint c.api_host,
          [("response_type", "code"), ("client_id", c.client_id),
           ("request", compactJwt (⟨.HS512, P,
              hmacSign .HS512 c.client_secret (DuoSer.ser P)⟩ : JwtToken AuthUrlJwt))]⟩ := by
  subst hP
  rw [DuoClient.make_authz_req_url]
  simp [DuoClient.encode_duo_jwt, UrlQ.append_pair, hhost]

/-- Witness for C9 at a concrete client, username, state and nonce. -/
theorem make_authz_req_url_spec_witness :
    ((DuoClient.new "ik" "sk" "h" "cb").api_host ≠ "")
    ∧ (DuoClient.new "ik" "sk" "h" "cb").make_authz_req_url "u" "st" "no" 7
      = .ok ⟨authzEndpoint "h",
          [("response_type", "code"), ("client_id", "ik"),
           ("request", compactJwt (⟨.HS512,
              AuthUrlJwt.mk "code" "openid" (7 + JWT_VALIDITY_SECS) "ik" "cb"
                "st" "u" (some "ik") (some (apiHostUrl "h")) "no" (some false),
              hmacSign .HS512 "sk" (DuoSer.ser
                (AuthUrlJwt.mk "code" "openid" (7 + JWT_VALIDITY_SECS) "ik" "cb"
                  "st" "u" (some "ik") (some (apiHostUrl "h")) "no" (some false)))⟩
              : JwtToken AuthUrlJwt))]⟩ :=
  ⟨by decide,
    make_authz_req_url_spec (DuoClient.new "ik" "sk" "h" "cb") "u" "st" "no" 7
      (by decide) _ rfl⟩
